import Mathlib

/-!
Verification development for the tech-qna-api question/answer service.

The Rust sources embedded here are:
* `src/handlers/handlers_inner.rs` — the handler layer (`HandlerError`, the six
  handler functions, their error translation and logging),
* `src/persistance/questions_dao.rs` and `src/persistance/answers_dao.rs` — the
  Postgres-backed DAO implementations (`QuestionsDaoImpl`, `AnswersDaoImpl`),
* `src/handlers/mod.rs` and `src/main.rs` — the stub route handlers and the
  router that binds them.

External collaborators (the `uuid` crate's parser/formatter and the Postgres
semantics of the four SQL statements the DAOs issue) are modelled explicitly.
Logging (`error!`) is modelled by having each handler return, next to its
result, the list of `DBError` values it logged.
-/

set_option maxRecDepth 4000

/-! ## Domain model (`models.rs`, reconstructed)

Modelled from the spec: `models.rs` is not among the provided sources; the
record shapes below follow spec §3 and the field accesses in the provided
handler/DAO sources, and `DBError` follows the storage error taxonomy of
spec §4.2 together with its uses (`DBError::InvalidUUID(s)`,
`DBError::Other(boxed cause)`) in `handlers_inner.rs` and the DAO files. -/

structure Question where
  title : String
  description : String
deriving DecidableEq, Repr

structure QuestionDetail where
  question_uuid : String
  title : String
  description : String
  created_at : String
deriving DecidableEq, Repr

structure QuestionId where
  question_uuid : String
deriving DecidableEq, Repr

structure Answer where
  question_uuid : String
  content : String
deriving DecidableEq, Repr

structure AnswerDetail where
  answer_uuid : String
  question_uuid : String
  content : String
  created_at : String
deriving DecidableEq, Repr

structure AnswerId where
  answer_uuid : String
deriving DecidableEq, Repr

/-- A `sqlx::Error` as far as the DAO code inspects it: either a database
error carrying an optional error code (`sqlx::Error::Database`, inspected via
`e.code()`), or any other variant of `sqlx::Error`, kept abstract as a
message. -/
inductive SqlxError where
  | Database : Option String → String → SqlxError
  | OtherVariant : String → SqlxError
deriving DecidableEq, Repr

/-- The storage error taxonomy (`DBError` in `models.rs`).
`InvalidUUID` carries a message; `Other` wraps the underlying cause
(`Box<dyn Error>` in Rust, here the `SqlxError` that was wrapped). -/
inductive DBError where
  | InvalidUUID : String → DBError
  | Other : SqlxError → DBError
deriving DecidableEq, Repr

namespace postgres_error_codes

/-- Modelled from the spec: `postgres_error_codes` lives in the missing
`models.rs`; §6 of the spec requires detecting referential-integrity
violations by the backend's structured error code, and Postgres reports them
with SQLSTATE 23503. -/
def FOREIGN_KEY_VIOLATION : String := "23503"

end postgres_error_codes

/-! ## UUIDs (`sqlx::types::Uuid`, i.e. the `uuid` crate)

A UUID value is its sequence of 32 hexadecimal digit values.  `parse_str`
follows the `uuid` crate's parser: it accepts the simple form (32 hex
digits), the hyphenated form (8-4-4-4-12), the braced hyphenated form and the
`urn:uuid:` prefixed hyphenated form, case-insensitively.  `toString` renders
the canonical lowercase hyphenated form, as the crate's `Display` does. -/

structure Uuid where
  digits : List Nat
deriving DecidableEq, Repr

/-- Value of a hexadecimal digit character, case-insensitive. -/
def hexVal (c : Char) : Option Nat :=
  if '0' ≤ c ∧ c ≤ '9' then some (c.toNat - '0'.toNat)
  else if 'a' ≤ c ∧ c ≤ 'f' then some (c.toNat - 'a'.toNat + 10)
  else if 'A' ≤ c ∧ c ≤ 'F' then some (c.toNat - 'A'.toNat + 10)
  else none

/-- Interpret every character of the list as a hex digit. -/
def hexDigits : List Char → Option (List Nat)
  | [] => some []
  | c :: cs =>
    match hexVal c, hexDigits cs with
    | some v, some vs => some (v :: vs)
    | _, _ => none

/-- Parse the 36-character hyphenated form `xxxxxxxx-xxxx-xxxx-xxxx-xxxxxxxxxxxx`. -/
def parseHyphenated (cs : List Char) : Option (List Nat) :=
  if cs.length = 36 then
    match cs.get? 8, cs.get? 13, cs.get? 18, cs.get? 23 with
    | some '-', some '-', some '-', some '-' =>
      hexDigits (cs.take 8 ++ ((cs.drop 9).take 4) ++ ((cs.drop 14).take 4)
        ++ ((cs.drop 19).take 4) ++ cs.drop 24)
    | _, _, _, _ => none
  else none

def lbraceChar : Char := Char.ofNat 123

def rbraceChar : Char := Char.ofNat 125

/-- `sqlx::types::Uuid::parse_str`, following the `uuid` crate: dispatch on
length — 32 is the simple form, 36 the hyphenated form, 38 the braced
hyphenated form, 45 the `urn:uuid:`-prefixed hyphenated form. -/
def Uuid.parse_str (s : String) : Option Uuid :=
  let cs := s.toList
  if cs.length = 32 then (hexDigits cs).map Uuid.mk
  else if cs.length = 36 then (parseHyphenated cs).map Uuid.mk
  else if cs.length = 38 then
    if cs.head? = some lbraceChar ∧ cs.getLast? = some rbraceChar then
      (parseHyphenated (cs.drop 1).dropLast).map Uuid.mk
    else none
  else if cs.length = 45 then
    if cs.take 9 = "urn:uuid:".toList then
      (parseHyphenated (cs.drop 9)).map Uuid.mk
    else none
  else none

/-- Lowercase hexadecimal digit character for a value below 16. -/
def hexChar (n : Nat) : Char :=
  if n < 10 then Char.ofNat ('0'.toNat + n) else Char.ofNat ('a'.toNat + n - 10)

/-- The `uuid` crate's `Display`: canonical lowercase hyphenated form. -/
def Uuid.toString (u : Uuid) : String :=
  let ds := u.digits.map hexChar
  String.mk (ds.take 8 ++ '-' :: ((ds.drop 8).take 4) ++ '-' :: ((ds.drop 12).take 4)
    ++ '-' :: ((ds.drop 16).take 4) ++ '-' :: ds.drop 20)

def uuidZero : Uuid := ⟨List.replicate 32 0⟩

def uuidOne : Uuid := ⟨List.replicate 31 0 ++ [1]⟩

example : Uuid.parse_str "00000000-0000-0000-0000-000000000000" = some uuidZero := by decide
example : Uuid.parse_str "00000000000000000000000000000001" = some uuidOne := by decide
example : Uuid.parse_str "not-a-uuid" = none := by decide
example : Uuid.toString uuidOne = "00000000-0000-0000-0000-000000000001" := by decide

/-! ## The backing database (external collaborator, modelled)

A database state holds the `questions` and `answers` tables.  A `Backend`
bundles the state with the server-generated values the next insert would use
(`fresh_uuid`, `now`) and an optional injected failure: when `failure` is
`some e`, the executed query fails with the `sqlx` error `e` (connectivity
loss etc.); when it is `none`, the query runs with Postgres semantics.  The
schema (spec §6) makes `answers.question_uuid` a foreign key into
`questions`, so an insert into `answers` referencing an absent question fails
with a foreign-key violation (SQLSTATE 23503), and a delete of a question
that is still referenced is rejected the same way (Postgres default NO
ACTION). -/

structure QuestionRecord where
  question_uuid : Uuid
  title : String
  description : String
  created_at : String
deriving DecidableEq, Repr

structure AnswerRecord where
  answer_uuid : Uuid
  question_uuid : Uuid
  content : String
  created_at : String
deriving DecidableEq, Repr

structure Db where
  questions : List QuestionRecord
  answers : List AnswerRecord
deriving DecidableEq, Repr

structure Backend where
  db : Db
  failure : Option SqlxError
  fresh_uuid : Uuid
  now : String
deriving DecidableEq, Repr

/-- `INSERT INTO questions (title, description) VALUES ($1,$2) RETURNING *`. -/
def pg_insert_question (b : Backend) (title description : String) :
    Except SqlxError (QuestionRecord × Db) :=
  match b.failure with
  | some e => .error e
  | none =>
    let record : QuestionRecord :=
      { question_uuid := b.fresh_uuid, title := title, description := description,
        created_at := b.now }
    .ok (record, { b.db with questions := b.db.questions ++ [record] })

/-- `INSERT INTO answers (question_uuid, content) VALUES ($1,$2) RETURNING *`:
fails with a foreign-key violation when no question row carries `uuid`. -/
def pg_insert_answer (b : Backend) (uuid : Uuid) (content : String) :
    Except SqlxError (AnswerRecord × Db) :=
  match b.failure with
  | some e => .error e
  | none =>
    if b.db.questions.any (fun q => decide (q.question_uuid = uuid)) then
      let record : AnswerRecord :=
        { answer_uuid := b.fresh_uuid, question_uuid := uuid, content := content,
          created_at := b.now }
      .ok (record, { b.db with answers := b.db.answers ++ [record] })
    else
      .error (.Database (some postgres_error_codes.FOREIGN_KEY_VIOLATION)
        "insert or update on table answers violates foreign key constraint")

/-- `DELETE FROM questions WHERE question_uuid = $1`: rejected with a
foreign-key violation when the row exists and answers still reference it,
otherwise removes the matching rows (zero rows affected is a success). -/
def pg_delete_question (b : Backend) (uuid : Uuid) : Except SqlxError Db :=
  match b.failure with
  | some e => .error e
  | none =>
    if b.db.questions.any (fun q => decide (q.question_uuid = uuid))
        && b.db.answers.any (fun a => decide (a.question_uuid = uuid)) then
      .error (.Database (some postgres_error_codes.FOREIGN_KEY_VIOLATION)
        "update or delete on table questions violates foreign key constraint")
    else
      .ok { b.db with questions := b.db.questions.filter (fun q => decide (q.question_uuid ≠ uuid)) }

/-- `DELETE FROM answers WHERE answer_uuid = $1` (zero rows affected is a success). -/
def pg_delete_answer (b : Backend) (uuid : Uuid) : Except SqlxError Db :=
  match b.failure with
  | some e => .error e
  | none =>
    .ok { b.db with answers := b.db.answers.filter (fun a => decide (a.answer_uuid ≠ uuid)) }

/-- `SELECT * FROM questions`. -/
def pg_select_questions (b : Backend) : Except SqlxError (List QuestionRecord) :=
  match b.failure with
  | some e => .error e
  | none => .ok b.db.questions

/-- `SELECT * FROM answers WHERE question_uuid = $1`. -/
def pg_select_answers (b : Backend) (uuid : Uuid) : Except SqlxError (List AnswerRecord) :=
  match b.failure with
  | some e => .error e
  | none => .ok (b.db.answers.filter (fun a => decide (a.question_uuid = uuid)))

/-! ## `QuestionsDaoImpl` (`src/persistance/questions_dao.rs`)

Each operation returns its `Result` together with the database state after
the call, so that theorems can speak about (absence of) store mutation. -/

namespace QuestionsDaoImpl

def create_question (b : Backend) (question : Question) :
    Except DBError QuestionDetail × Db :=
  match pg_insert_question b question.title question.description with
  | .error e => (.error (.Other e), b.db)
  | .ok (record, db') =>
    (.ok { question_uuid := record.question_uuid.toString, title := record.title,
           description := record.description, created_at := record.created_at }, db')

def delete_question (b : Backend) (question_uuid : String) :
    Except DBError Unit × Db :=
  match Uuid.parse_str question_uuid with
  | none => (.error (.InvalidUUID ("Could not parse question UUID: " ++ question_uuid)), b.db)
  | some uuid =>
    match pg_delete_question b uuid with
    | .error e => (.error (.Other e), b.db)
    | .ok db' => (.ok (), db')

def get_questions (b : Backend) : Except DBError (List QuestionDetail) × Db :=
  match pg_select_questions b with
  | .error e => (.error (.Other e), b.db)
  | .ok records =>
    (.ok (records.map (fun r =>
      { question_uuid := r.question_uuid.toString, title := r.title,
        description := r.description, created_at := r.created_at })), b.db)

end QuestionsDaoImpl

/-! ## `AnswersDaoImpl` (`src/persistance/answers_dao.rs`) -/

namespace AnswersDaoImpl

def create_answer (b : Backend) (answer : Answer) :
    Except DBError AnswerDetail × Db :=
  match Uuid.parse_str answer.question_uuid with
  | none =>
    (.error (.InvalidUUID ("Could not parse answer UUID: " ++ answer.question_uuid)), b.db)
  | some uuid =>
    match pg_insert_answer b uuid answer.content with
    | .error (.Database code msg) =>
      if code = some postgres_error_codes.FOREIGN_KEY_VIOLATION then
        (.error (.InvalidUUID ("Invalid question UUID: " ++ answer.question_uuid)), b.db)
      else
        (.error (.Other (.Database code msg)), b.db)
    | .error e => (.error (.Other e), b.db)
    | .ok (record, db') =>
      (.ok { answer_uuid := record.answer_uuid.toString,
             question_uuid := record.question_uuid.toString,
             content := record.content, created_at := record.created_at }, db')

def delete_answer (b : Backend) (answer_uuid : String) :
    Except DBError Unit × Db :=
  match Uuid.parse_str answer_uuid with
  | none => (.error (.InvalidUUID ("Could not parse answer UUID: " ++ answer_uuid)), b.db)
  | some uuid =>
    match pg_delete_answer b uuid with
    | .error e => (.error (.Other e), b.db)
    | .ok db' => (.ok (), db')

def get_answers (b : Backend) (question_uuid : String) :
    Except DBError (List AnswerDetail) × Db :=
  match Uuid.parse_str question_uuid with
  | none =>
    (.error (.InvalidUUID ("Could not parse question with UUID: " ++ question_uuid)), b.db)
  | some uuid =>
    match pg_select_answers b uuid with
    | .error e => (.error (.Other e), b.db)
    | .ok records =>
      (.ok (records.map (fun r =>
        { answer_uuid := r.answer_uuid.toString,
          question_uuid := r.question_uuid.toString,
          content := r.content, created_at := r.created_at })), b.db)

end AnswersDaoImpl

/-! ## Handler layer (`src/handlers/handlers_inner.rs`)

A handler receives a trait object of DAO operations; each handler invokes
exactly one of them.  Next to its `Result` every handler returns the list of
`DBError` values it passed to `error!` (the log), in order. -/

inductive HandlerError where
  | BadRequest : String → HandlerError
  | InternalError : String → HandlerError
deriving DecidableEq, Repr

/-- `HandlerError::default_internal_error`. -/
def HandlerError.default_internal_error : HandlerError :=
  HandlerError.InternalError "Something went wrong! Please try again."

/-- The `QuestionsDao` trait object as the handlers consume it. -/
structure QuestionsDao where
  create_question : Question → Except DBError QuestionDetail
  delete_question : String → Except DBError Unit
  get_questions : Except DBError (List QuestionDetail)

/-- The `AnswersDao` trait object as the handlers consume it. -/
structure AnswersDao where
  create_answer : Answer → Except DBError AnswerDetail
  delete_answer : String → Except DBError Unit
  get_answers : String → Except DBError (List AnswerDetail)

namespace handlers_inner

def create_question (question : Question) (questions_dao : QuestionsDao) :
    Except HandlerError QuestionDetail × List DBError :=
  match questions_dao.create_question question with
  | .ok question => (.ok question, [])
  | .error err => (.error HandlerError.default_internal_error, [err])

def read_questions (questions_dao : QuestionsDao) :
    Except HandlerError (List QuestionDetail) × List DBError :=
  match questions_dao.get_questions with
  | .ok questions => (.ok questions, [])
  | .error err => (.error HandlerError.default_internal_error, [err])

def delete_question (question_id : QuestionId) (questions_dao : QuestionsDao) :
    Except HandlerError Unit × List DBError :=
  match questions_dao.delete_question question_id.question_uuid with
  | .error _ => (.error HandlerError.default_internal_error, [])
  | .ok _ => (.ok (), [])

def create_answer (answer : Answer) (answers_dao : AnswersDao) :
    Except HandlerError AnswerDetail × List DBError :=
  match answers_dao.create_answer answer with
  | .ok answer => (.ok answer, [])
  | .error err =>
    match err with
    | DBError.InvalidUUID s => (.error (HandlerError.BadRequest s), [DBError.InvalidUUID s])
    | e => (.error HandlerError.default_internal_error, [e])

def read_answers (question_id : QuestionId) (answers_dao : AnswersDao) :
    Except HandlerError (List AnswerDetail) × List DBError :=
  match answers_dao.get_answers question_id.question_uuid with
  | .ok answers => (.ok answers, [])
  | .error e => (.error HandlerError.default_internal_error, [e])

def delete_answer (answer_id : AnswerId) (answers_dao : AnswersDao) :
    Except HandlerError Unit × List DBError :=
  match answers_dao.delete_answer answer_id.answer_uuid with
  | .error _ => (.error HandlerError.default_internal_error, [])
  | .ok _ => (.ok (), [])

end handlers_inner

/-- The `QuestionsDao` trait object built from `QuestionsDaoImpl` over a
fixed backend (result components of the DAO operations). -/
def questionsDaoOf (b : Backend) : QuestionsDao where
  create_question := fun q => (QuestionsDaoImpl.create_question b q).1
  delete_question := fun s => (QuestionsDaoImpl.delete_question b s).1
  get_questions := (QuestionsDaoImpl.get_questions b).1

/-- The `AnswersDao` trait object built from `AnswersDaoImpl` over a fixed
backend. -/
def answersDaoOf (b : Backend) : AnswersDao where
  create_answer := fun a => (AnswersDaoImpl.create_answer b a).1
  delete_answer := fun s => (AnswersDaoImpl.delete_answer b s).1
  get_answers := fun s => (AnswersDaoImpl.get_answers b s).1

/-- A scripted `QuestionsDao` test double returning fixed responses. -/
def stubQuestionsDao (cr : Except DBError QuestionDetail) (dr : Except DBError Unit)
    (gr : Except DBError (List QuestionDetail)) : QuestionsDao where
  create_question := fun _ => cr
  delete_question := fun _ => dr
  get_questions := gr

/-- A scripted `AnswersDao` test double returning fixed responses. -/
def stubAnswersDao (cr : Except DBError AnswerDetail) (dr : Except DBError Unit)
    (gr : Except DBError (List AnswerDetail)) : AnswersDao where
  create_answer := fun _ => cr
  delete_answer := fun _ => dr
  get_answers := fun _ => gr

/-- A `QuestionsDao` whose every operation fails with `err`. -/
def failingQuestionsDao (err : DBError) : QuestionsDao :=
  stubQuestionsDao (.error err) (.error err) (.error err)

/-- An `AnswersDao` whose every operation fails with `err`. -/
def failingAnswersDao (err : DBError) : AnswersDao :=
  stubAnswersDao (.error err) (.error err) (.error err)

/-! ## Route handlers (`src/handlers/mod.rs`) and the router (`src/main.rs`)

The handlers actually bound to the HTTP routes are the placeholder functions
in `handlers/mod.rs`: they take no store capability at all (their Lean types
have no `Backend`, `QuestionsDao` or `AnswersDao` argument) and return
hard-coded data.  `main.rs` does `use handlers::*`, so the names bound by the
router below resolve to these placeholders, not to `handlers_inner`. -/

namespace handlers

def placeholder_question_detail : QuestionDetail :=
  { question_uuid := "00000000-0000-0000-0000-000000000000",
    title := "Lorem ipsum",
    description := "Lorem ipsum dolor sit amet, consectetur adipiscing elit, sed do eiusmod tempor incididunt ut labore et dolore magna aliqua. Auctor urna nunc id cursus. Non odio euismod lacinia at quis. Augue lacus viverra vitae congue eu consequat ac felis. Justo nec ultrices dui sapien.",
    created_at := "Jan 1, 1970" }

def placeholder_question_list : List QuestionDetail :=
  [{ question_uuid := "00000000-0000-0000-0000-000000000000",
     title := "Lorem ipsum",
     description := "Lorem ipsum dolor sit amet, consectetur adipiscing elit, sed do eiusmod tempor incididunt ut labore et dolore magna aliqua. Est velit egestas dui id ornare arcu odio. Suspendisse interdum consectetur libero id faucibus nisl. Tincidunt vitae semper quis lectus. Proin gravida hendrerit lectus a.",
     created_at := "Jan 1, 1970" },
   { question_uuid := "00000000-0000-0000-0000-000000000000",
     title := "Lorem ipsum",
     description := "Lorem ipsum dolor sit amet, consectetur adipiscing elit, sed do eiusmod tempor incididunt ut labore et dolore magna aliqua. Ipsum faucibus vitae aliquet nec ullamcorper sit amet risus nullam. Pulvinar elementum integer enim neque volutpat ac tincidunt vitae semper. Scelerisque in dictum non consectetur a. Enim nunc faucibus a pellentesque sit amet porttitor eget.",
     created_at := "Jan 1, 1970" }]

def placeholder_answer_detail : AnswerDetail :=
  { answer_uuid := "00000000-0000-0000-0000-000000000000",
    question_uuid := "00000000-0000-0000-0000-000000000000",
    content := "Lorem ipsum dolor sit amet, consectetur adipiscing elit, sed do eiusmod tempor incididunt ut labore et dolore magna aliqua. In aliquam sem fringilla ut. Enim tortor at auctor urna. Mattis vulputate enim nulla aliquet porttitor lacus. Interdum varius sit amet mattis vulputate enim nulla.",
    created_at := "Jan 1, 1970" }

def placeholder_answer_list : List AnswerDetail :=
  [{ answer_uuid := "00000000-0000-0000-0000-000000000000",
     question_uuid := "00000000-0000-0000-0000-000000000000",
     content := "Lorem ipsum dolor sit amet, consectetur adipiscing elit, sed do eiusmod tempor incididunt ut labore et dolore magna aliqua. Viverra aliquet eget sit amet tellus cras. Est sit amet facilisis magna etiam. Odio facilisis mauris sit amet. Diam sit amet nisl suscipit.",
     created_at := "Jan 1, 1970" },
   { answer_uuid := "00000000-0000-0000-0000-000000000000",
     question_uuid := "00000000-0000-0000-0000-000000000000",
     content := "Lorem ipsum dolor sit amet, consectetur adipiscing elit, sed do eiusmod tempor incididunt ut labore et dolore magna aliqua. Imperdiet nulla malesuada pellentesque elit eget gravida cum sociis. Sed viverra tellus in hac habitasse platea dictumst vestibulum rhoncus. Sed id semper risus in hendrerit gravida. Vitae ultricies leo integer malesuada nunc vel.",
     created_at := "Jan 1, 1970" }]

def create_question (question : Question) : QuestionDetail :=
  placeholder_question_detail

def read_questions : List QuestionDetail :=
  placeholder_question_list

def delete_question (question_uuid : QuestionId) : Unit :=
  ()

def create_answer (answer : Answer) : AnswerDetail :=
  placeholder_answer_detail

def read_answers : List AnswerDetail :=
  placeholder_answer_list

def delete_answer (answer_uuid : AnswerId) : Unit :=
  ()

end handlers

/-- The handler functions `main.rs` can bind routes to: after
`use handlers::*` these are exactly the six placeholder functions of
`handlers/mod.rs`. -/
inductive RouteHandler where
  | create_question
  | read_questions
  | delete_question
  | create_answer
  | read_answers
  | delete_answer
deriving DecidableEq, Repr

inductive HttpMethod where
  | post
  | get
  | delete
deriving DecidableEq, Repr

/-- The routing table built in `main`. -/
def router : List (HttpMethod × String × RouteHandler) :=
  [(.post, "/question", .create_question),
   (.get, "/questions", .read_questions),
   (.delete, "/question", .delete_question),
   (.post, "/answer", .create_answer),
   (.get, "/answers", .read_answers),
   (.delete, "/answer", .delete_answer)]

/-! ## Test fixtures shared by the witnesses -/

def errInvalidM : DBError := DBError.InvalidUUID "m"

def errOtherBoom : DBError := DBError.Other (SqlxError.OtherVariant "boom")

def sampleQuestion : Question := { title := "t", description := "d" }

def sampleAnswer : Answer := { question_uuid := "123", content := "c" }

def sampleQuestionId : QuestionId := { question_uuid := "123" }

def sampleAnswerId : AnswerId := { answer_uuid := "123" }

/-! ## Claim theorems -/

/-- C1: the create-answer handler maps `InvalidUUID msg` to `BadRequest msg`
and every other storage error to the fixed internal error, while each of the
other five handlers maps every storage error — `InvalidUUID` included — to
the fixed internal error. -/
theorem handler_error_translation :
    (∀ (answer : Answer) (dao : AnswersDao) (msg : String),
      dao.create_answer answer = .error (DBError.InvalidUUID msg) →
      (handlers_inner.create_answer answer dao).1 = .error (HandlerError.BadRequest msg)) ∧
    (∀ (answer : Answer) (dao : AnswersDao) (e : SqlxError),
      dao.create_answer answer = .error (DBError.Other e) →
      (handlers_inner.create_answer answer dao).1 = .error HandlerError.default_internal_error) ∧
    (∀ (q : Question) (dao : QuestionsDao) (err : DBError),
      dao.create_question q = .error err →
      (handlers_inner.create_question q dao).1 = .error HandlerError.default_internal_error) ∧
    (∀ (qid : QuestionId) (dao : QuestionsDao) (err : DBError),
      dao.delete_question qid.question_uuid = .error err →
      (handlers_inner.delete_question qid dao).1 = .error HandlerError.default_internal_error) ∧
    (∀ (aid : AnswerId) (dao : AnswersDao) (err : DBError),
      dao.delete_answer aid.answer_uuid = .error err →
      (handlers_inner.delete_answer aid dao).1 = .error HandlerError.default_internal_error) ∧
    (∀ (dao : QuestionsDao) (err : DBError),
      dao.get_questions = .error err →
      (handlers_inner.read_questions dao).1 = .error HandlerError.default_internal_error) ∧
    (∀ (qid : QuestionId) (dao : AnswersDao) (err : DBError),
      dao.get_answers qid.question_uuid = .error err →
      (handlers_inner.read_answers qid dao).1 = .error HandlerError.default_internal_error) := by
  refine ⟨?_, ?_, ?_, ?_, ?_, ?_, ?_⟩
  · intro answer dao msg h
    simp [handlers_inner.create_answer, h]
  · intro answer dao e h
    simp [handlers_inner.create_answer, h]
  · intro q dao err h
    simp [handlers_inner.create_question, h]
  · intro qid dao err h
    simp [handlers_inner.delete_question, h]
  · intro aid dao err h
    simp [handlers_inner.delete_answer, h]
  · intro dao err h
    simp [handlers_inner.read_questions, h]
  · intro qid dao err h
    simp [handlers_inner.read_answers, h]

/-- Witness for C1: each branch of `handler_error_translation` applied to a
scripted DAO returning a concrete error. -/
theorem handler_error_translation_witness :
    (handlers_inner.create_answer sampleAnswer (failingAnswersDao errInvalidM)).1
      = .error (HandlerError.BadRequest "m") ∧
    (handlers_inner.create_answer sampleAnswer (failingAnswersDao errOtherBoom)).1
      = .error HandlerError.default_internal_error ∧
    (handlers_inner.create_question sampleQuestion (failingQuestionsDao errInvalidM)).1
      = .error HandlerError.default_internal_error ∧
    (handlers_inner.delete_question sampleQuestionId (failingQuestionsDao errInvalidM)).1
      = .error HandlerError.default_internal_error ∧
    (handlers_inner.delete_answer sampleAnswerId (failingAnswersDao errInvalidM)).1
      = .error HandlerError.default_internal_error ∧
    (handlers_inner.read_questions (failingQuestionsDao errInvalidM)).1
      = .error HandlerError.default_internal_error ∧
    (handlers_inner.read_answers sampleQuestionId (failingAnswersDao errInvalidM)).1
      = .error HandlerError.default_internal_error :=
  ⟨handler_error_translation.1 sampleAnswer (failingAnswersDao errInvalidM) "m" rfl,
   handler_error_translation.2.1 sampleAnswer (failingAnswersDao errOtherBoom)
     (SqlxError.OtherVariant "boom") rfl,
   handler_error_translation.2.2.1 sampleQuestion (failingQuestionsDao errInvalidM)
     errInvalidM rfl,
   handler_error_translation.2.2.2.1 sampleQuestionId (failingQuestionsDao errInvalidM)
     errInvalidM rfl,
   handler_error_translation.2.2.2.2.1 sampleAnswerId (failingAnswersDao errInvalidM)
     errInvalidM rfl,
   handler_error_translation.2.2.2.2.2.1 (failingQuestionsDao errInvalidM) errInvalidM rfl,
   handler_error_translation.2.2.2.2.2.2 sampleQuestionId (failingAnswersDao errInvalidM)
     errInvalidM rfl⟩

/-- C7: every handler propagates a successful store result unchanged. -/
theorem ok_propagated_unchanged :
    (∀ (q : Question) (dao : QuestionsDao) (v : QuestionDetail),
      dao.create_question q = .ok v → (handlers_inner.create_question q dao).1 = .ok v) ∧
    (∀ (dao : QuestionsDao) (v : List QuestionDetail),
      dao.get_questions = .ok v → (handlers_inner.read_questions dao).1 = .ok v) ∧
    (∀ (qid : QuestionId) (dao : QuestionsDao) (v : Unit),
      dao.delete_question qid.question_uuid = .ok v →
      (handlers_inner.delete_question qid dao).1 = .ok v) ∧
    (∀ (a : Answer) (dao : AnswersDao) (v : AnswerDetail),
      dao.create_answer a = .ok v → (handlers_inner.create_answer a dao).1 = .ok v) ∧
    (∀ (qid : QuestionId) (dao : AnswersDao) (v : List AnswerDetail),
      dao.get_answers qid.question_uuid = .ok v →
      (handlers_inner.read_answers qid dao).1 = .ok v) ∧
    (∀ (aid : AnswerId) (dao : AnswersDao) (v : Unit),
      dao.delete_answer aid.answer_uuid = .ok v →
      (handlers_inner.delete_answer aid dao).1 = .ok v) := by
  refine ⟨?_, ?_, ?_, ?_, ?_, ?_⟩
  · intro q dao v h
    simp [handlers_inner.create_question, h]
  · intro dao v h
    simp [handlers_inner.read_questions, h]
  · intro qid dao v h
    simp [handlers_inner.delete_question, h]
  · intro a dao v h
    simp [handlers_inner.create_answer, h]
  · intro qid dao v h
    simp [handlers_inner.read_answers, h]
  · intro aid dao v h
    simp [handlers_inner.delete_answer, h]

def sampleQuestionDetail : QuestionDetail :=
  { question_uuid := "123", title := "t", description := "d", created_at := "now" }

def sampleAnswerDetail : AnswerDetail :=
  { answer_uuid := "456", question_uuid := "123", content := "c", created_at := "now" }

def okQuestionsDao : QuestionsDao :=
  stubQuestionsDao (.ok sampleQuestionDetail) (.ok ()) (.ok [sampleQuestionDetail])

def okAnswersDao : AnswersDao :=
  stubAnswersDao (.ok sampleAnswerDetail) (.ok ()) (.ok [sampleAnswerDetail])

/-- Witness for C7: each branch of `ok_propagated_unchanged` applied to a
scripted DAO returning concrete successes. -/
theorem ok_propagated_unchanged_witness :
    (handlers_inner.create_question sampleQuestion okQuestionsDao).1 = .ok sampleQuestionDetail ∧
    (handlers_inner.read_questions okQuestionsDao).1 = .ok [sampleQuestionDetail] ∧
    (handlers_inner.delete_question sampleQuestionId okQuestionsDao).1 = .ok () ∧
    (handlers_inner.create_answer sampleAnswer okAnswersDao).1 = .ok sampleAnswerDetail ∧
    (handlers_inner.read_answers sampleQuestionId okAnswersDao).1 = .ok [sampleAnswerDetail] ∧
    (handlers_inner.delete_answer sampleAnswerId okAnswersDao).1 = .ok () :=
  ⟨ok_propagated_unchanged.1 sampleQuestion okQuestionsDao sampleQuestionDetail rfl,
   ok_propagated_unchanged.2.1 okQuestionsDao [sampleQuestionDetail] rfl,
   ok_propagated_unchanged.2.2.1 sampleQuestionId okQuestionsDao () rfl,
   ok_propagated_unchanged.2.2.2.1 sampleAnswer okAnswersDao sampleAnswerDetail rfl,
   ok_propagated_unchanged.2.2.2.2.1 sampleQuestionId okAnswersDao [sampleAnswerDetail] rfl,
   ok_propagated_unchanged.2.2.2.2.2 sampleAnswerId okAnswersDao () rfl⟩

/-- C5: `default_internal_error` is `InternalError` with exactly the fixed
message, and whenever any handler returns an `InternalError`, its message is
that fixed message. -/
theorem internal_error_fixed_message :
    HandlerError.default_internal_error
      = HandlerError.InternalError "Something went wrong! Please try again." ∧
    (∀ (q : Question) (dao : QuestionsDao) (m : String),
      (handlers_inner.create_question q dao).1 = .error (HandlerError.InternalError m) →
      m = "Something went wrong! Please try again.") ∧
    (∀ (dao : QuestionsDao) (m : String),
      (handlers_inner.read_questions dao).1 = .error (HandlerError.InternalError m) →
      m = "Something went wrong! Please try again.") ∧
    (∀ (qid : QuestionId) (dao : QuestionsDao) (m : String),
      (handlers_inner.delete_question qid dao).1 = .error (HandlerError.InternalError m) →
      m = "Something went wrong! Please try again.") ∧
    (∀ (a : Answer) (dao : AnswersDao) (m : String),
      (handlers_inner.create_answer a dao).1 = .error (HandlerError.InternalError m) →
      m = "Something went wrong! Please try again.") ∧
    (∀ (qid : QuestionId) (dao : AnswersDao) (m : String),
      (handlers_inner.read_answers qid dao).1 = .error (HandlerError.InternalError m) →
      m = "Something went wrong! Please try again.") ∧
    (∀ (aid : AnswerId) (dao : AnswersDao) (m : String),
      (handlers_inner.delete_answer aid dao).1 = .error (HandlerError.InternalError m) →
      m = "Something went wrong! Please try again.") := by
  refine ⟨rfl, ?_, ?_, ?_, ?_, ?_, ?_⟩
  · intro q dao m h
    cases hc : dao.create_question q <;>
      simp [handlers_inner.create_question, hc, HandlerError.default_internal_error] at h
    exact h.symm
  · intro dao m h
    cases hc : dao.get_questions <;>
      simp [handlers_inner.read_questions, hc, HandlerError.default_internal_error] at h
    exact h.symm
  · intro qid dao m h
    cases hc : dao.delete_question qid.question_uuid <;>
      simp [handlers_inner.delete_question, hc, HandlerError.default_internal_error] at h
    exact h.symm
  · intro a dao m h
    cases hc : dao.create_answer a with
    | ok v => simp [handlers_inner.create_answer, hc] at h
    | error e =>
      cases e <;>
        simp [handlers_inner.create_answer, hc, HandlerError.default_internal_error] at h
      exact h.symm
  · intro qid dao m h
    cases hc : dao.get_answers qid.question_uuid <;>
      simp [handlers_inner.read_answers, hc, HandlerError.default_internal_error] at h
    exact h.symm
  · intro aid dao m h
    cases hc : dao.delete_answer aid.answer_uuid <;>
      simp [handlers_inner.delete_answer, hc, HandlerError.default_internal_error] at h
    exact h.symm

/-- Witness for C5: `internal_error_fixed_message` applied to the handler
result of a scripted failing DAO. -/
theorem internal_error_fixed_message_witness :
    "Something went wrong! Please try again." = "Something went wrong! Please try again." :=
  internal_error_fixed_message.2.1 sampleQuestion (failingQuestionsDao errOtherBoom)
    "Something went wrong! Please try again." rfl

/-- C2 counterexample: the delete-question and delete-answer handlers receive
a storage error from the store yet log nothing (their log component is
empty), so not every handler logs the storage errors it receives. -/
theorem delete_handlers_do_not_log :
    (failingQuestionsDao errInvalidM).delete_question sampleQuestionId.question_uuid
      = .error errInvalidM ∧
    (handlers_inner.delete_question sampleQuestionId (failingQuestionsDao errInvalidM)).2 = [] ∧
    (failingAnswersDao errInvalidM).delete_answer sampleAnswerId.answer_uuid
      = .error errInvalidM ∧
    (handlers_inner.delete_answer sampleAnswerId (failingAnswersDao errInvalidM)).2 = [] :=
  ⟨rfl, rfl, rfl, rfl⟩

/-- C2 amended: the create-question, list-question, create-answer and
list-answer handlers log exactly the storage error they receive; the
delete-question and delete-answer handlers log nothing at all. -/
theorem handler_logging_behavior :
    (∀ (q : Question) (dao : QuestionsDao) (err : DBError),
      dao.create_question q = .error err →
      (handlers_inner.create_question q dao).2 = [err]) ∧
    (∀ (dao : QuestionsDao) (err : DBError),
      dao.get_questions = .error err → (handlers_inner.read_questions dao).2 = [err]) ∧
    (∀ (a : Answer) (dao : AnswersDao) (err : DBError),
      dao.create_answer a = .error err → (handlers_inner.create_answer a dao).2 = [err]) ∧
    (∀ (qid : QuestionId) (dao : AnswersDao) (err : DBError),
      dao.get_answers qid.question_uuid = .error err →
      (handlers_inner.read_answers qid dao).2 = [err]) ∧
    (∀ (qid : QuestionId) (dao : QuestionsDao),
      (handlers_inner.delete_question qid dao).2 = []) ∧
    (∀ (aid : AnswerId) (dao : AnswersDao),
      (handlers_inner.delete_answer aid dao).2 = []) := by
  refine ⟨?_, ?_, ?_, ?_, ?_, ?_⟩
  · intro q dao err h
    simp [handlers_inner.create_question, h]
  · intro dao err h
    simp [handlers_inner.read_questions, h]
  · intro a dao err h
    cases err <;> simp [handlers_inner.create_answer, h]
  · intro qid dao err h
    simp [handlers_inner.read_answers, h]
  · intro qid dao
    cases h : dao.delete_question qid.question_uuid <;>
      simp [handlers_inner.delete_question, h]
  · intro aid dao
    cases h : dao.delete_answer aid.answer_uuid <;>
      simp [handlers_inner.delete_answer, h]

/-- Witness for C2 amended: the logging conjuncts applied to scripted DAOs
returning a concrete error, and the no-logging conjuncts at concrete input. -/
theorem handler_logging_behavior_witness :
    (handlers_inner.create_question sampleQuestion (failingQuestionsDao errInvalidM)).2
      = [errInvalidM] ∧
    (handlers_inner.read_questions (failingQuestionsDao errOtherBoom)).2 = [errOtherBoom] ∧
    (handlers_inner.create_answer sampleAnswer (failingAnswersDao errOtherBoom)).2
      = [errOtherBoom] ∧
    (handlers_inner.read_answers sampleQuestionId (failingAnswersDao errInvalidM)).2
      = [errInvalidM] ∧
    (handlers_inner.delete_question sampleQuestionId (failingQuestionsDao errOtherBoom)).2 = [] ∧
    (handlers_inner.delete_answer sampleAnswerId (failingAnswersDao errOtherBoom)).2 = [] :=
  ⟨handler_logging_behavior.1 sampleQuestion (failingQuestionsDao errInvalidM) errInvalidM rfl,
   handler_logging_behavior.2.1 (failingQuestionsDao errOtherBoom) errOtherBoom rfl,
   handler_logging_behavior.2.2.1 sampleAnswer (failingAnswersDao errOtherBoom) errOtherBoom rfl,
   handler_logging_behavior.2.2.2.1 sampleQuestionId (failingAnswersDao errInvalidM)
     errInvalidM rfl,
   handler_logging_behavior.2.2.2.2.1 sampleQuestionId (failingQuestionsDao errOtherBoom),
   handler_logging_behavior.2.2.2.2.2 sampleAnswerId (failingAnswersDao errOtherBoom)⟩

def emptyDb : Db := { questions := [], answers := [] }

def emptyBackend : Backend :=
  { db := emptyDb, failure := none, fresh_uuid := uuidZero, now := "now" }

/-- C4: on a malformed identifier string every identifier-taking DAO
operation fails with `InvalidUUID` (carrying the operation's parse message)
and leaves the database untouched — the store is never reached, whatever
state or failure mode the backend is in. -/
theorem malformed_uuid_rejected_before_store :
    ∀ (b : Backend) (s content : String), Uuid.parse_str s = none →
      AnswersDaoImpl.create_answer b { question_uuid := s, content := content }
        = (.error (DBError.InvalidUUID ("Could not parse answer UUID: " ++ s)), b.db) ∧
      QuestionsDaoImpl.delete_question b s
        = (.error (DBError.InvalidUUID ("Could not parse question UUID: " ++ s)), b.db) ∧
      AnswersDaoImpl.delete_answer b s
        = (.error (DBError.InvalidUUID ("Could not parse answer UUID: " ++ s)), b.db) ∧
      AnswersDaoImpl.get_answers b s
        = (.error (DBError.InvalidUUID ("Could not parse question with UUID: " ++ s)), b.db) := by
  intro b s content h
  refine ⟨?_, ?_, ?_, ?_⟩ <;>
    simp [AnswersDaoImpl.create_answer, QuestionsDaoImpl.delete_question,
      AnswersDaoImpl.delete_answer, AnswersDaoImpl.get_answers, h]

/-- Witness for C4: `malformed_uuid_rejected_before_store` at the malformed
string of the spec's scenario, over a concrete backend. -/
theorem malformed_uuid_rejected_before_store_witness :
    AnswersDaoImpl.create_answer emptyBackend { question_uuid := "not-a-uuid", content := "c" }
      = (.error (DBError.InvalidUUID "Could not parse answer UUID: not-a-uuid"), emptyDb) ∧
    QuestionsDaoImpl.delete_question emptyBackend "not-a-uuid"
      = (.error (DBError.InvalidUUID "Could not parse question UUID: not-a-uuid"), emptyDb) ∧
    AnswersDaoImpl.delete_answer emptyBackend "not-a-uuid"
      = (.error (DBError.InvalidUUID "Could not parse answer UUID: not-a-uuid"), emptyDb) ∧
    AnswersDaoImpl.get_answers emptyBackend "not-a-uuid"
      = (.error (DBError.InvalidUUID "Could not parse question with UUID: not-a-uuid"), emptyDb) :=
  malformed_uuid_rejected_before_store emptyBackend "not-a-uuid" "c" (by decide)

def fkSqlxError : SqlxError :=
  SqlxError.Database (some postgres_error_codes.FOREIGN_KEY_VIOLATION)
    "update or delete on table questions violates foreign key constraint"

def fkFailingBackend : Backend :=
  { db := emptyDb, failure := some fkSqlxError, fresh_uuid := uuidZero, now := "now" }

/-- C3 counterexample: the delete-question DAO operation receives a
backend-reported referential-integrity violation (SQLSTATE 23503) on a
well-formed identifier, yet wraps it in `Other` instead of translating it to
`InvalidUUID` — only create-answer performs that translation. -/
theorem delete_question_fk_wrapped_in_other :
    (QuestionsDaoImpl.delete_question fkFailingBackend
      "00000000-0000-0000-0000-000000000000").1
      = .error (DBError.Other fkSqlxError) := rfl

/-- C3 amended: the create-answer DAO operation translates a backend
foreign-key violation to `InvalidUUID` and wraps every other backend failure
in `Other`; delete-question, delete-answer and list-answers wrap every
backend failure — foreign-key violations included — in `Other`. -/
theorem dao_backend_error_translation :
    (∀ (b : Backend) (a : Answer) (u : Uuid) (msg : String),
      Uuid.parse_str a.question_uuid = some u →
      b.failure = some (SqlxError.Database
        (some postgres_error_codes.FOREIGN_KEY_VIOLATION) msg) →
      (AnswersDaoImpl.create_answer b a).1
        = .error (DBError.InvalidUUID ("Invalid question UUID: " ++ a.question_uuid))) ∧
    (∀ (b : Backend) (a : Answer) (u : Uuid) (code : Option String) (msg : String),
      Uuid.parse_str a.question_uuid = some u →
      b.failure = some (SqlxError.Database code msg) →
      code ≠ some postgres_error_codes.FOREIGN_KEY_VIOLATION →
      (AnswersDaoImpl.create_answer b a).1
        = .error (DBError.Other (SqlxError.Database code msg))) ∧
    (∀ (b : Backend) (a : Answer) (u : Uuid) (msg : String),
      Uuid.parse_str a.question_uuid = some u →
      b.failure = some (SqlxError.OtherVariant msg) →
      (AnswersDaoImpl.create_answer b a).1
        = .error (DBError.Other (SqlxError.OtherVariant msg))) ∧
    (∀ (b : Backend) (s : String) (u : Uuid) (e : SqlxError),
      Uuid.parse_str s = some u → b.failure = some e →
      (QuestionsDaoImpl.delete_question b s).1 = .error (DBError.Other e)) ∧
    (∀ (b : Backend) (s : String) (u : Uuid) (e : SqlxError),
      Uuid.parse_str s = some u → b.failure = some e →
      (AnswersDaoImpl.delete_answer b s).1 = .error (DBError.Other e)) ∧
    (∀ (b : Backend) (s : String) (u : Uuid) (e : SqlxError),
      Uuid.parse_str s = some u → b.failure = some e →
      (AnswersDaoImpl.get_answers b s).1 = .error (DBError.Other e)) := by
  refine ⟨?_, ?_, ?_, ?_, ?_, ?_⟩
  · intro b a u msg hp hf
    simp [AnswersDaoImpl.create_answer, hp, pg_insert_answer, hf]
  · intro b a u code msg hp hf hc
    simp [AnswersDaoImpl.create_answer, hp, pg_insert_answer, hf, hc]
  · intro b a u msg hp hf
    simp [AnswersDaoImpl.create_answer, hp, pg_insert_answer, hf]
  · intro b s u e hp hf
    simp [QuestionsDaoImpl.delete_question, hp, pg_delete_question, hf]
  · intro b s u e hp hf
    simp [AnswersDaoImpl.delete_answer, hp, pg_delete_answer, hf]
  · intro b s u e hp hf
    simp [AnswersDaoImpl.get_answers, hp, pg_select_answers, hf]

def connLostError : SqlxError := SqlxError.OtherVariant "connection reset"

def connLostBackend : Backend :=
  { db := emptyDb, failure := some connLostError, fresh_uuid := uuidZero, now := "now" }

/-- Witness for C3 amended: the conjuncts of `dao_backend_error_translation`
applied over concrete failing backends and a concrete well-formed UUID. -/
theorem dao_backend_error_translation_witness :
    (AnswersDaoImpl.create_answer fkFailingBackend
      { question_uuid := "00000000-0000-0000-0000-000000000000", content := "c" }).1
      = .error (DBError.InvalidUUID
          "Invalid question UUID: 00000000-0000-0000-0000-000000000000") ∧
    (AnswersDaoImpl.create_answer connLostBackend
      { question_uuid := "00000000-0000-0000-0000-000000000000", content := "c" }).1
      = .error (DBError.Other connLostError) ∧
    (QuestionsDaoImpl.delete_question connLostBackend
      "00000000-0000-0000-0000-000000000000").1 = .error (DBError.Other connLostError) ∧
    (AnswersDaoImpl.delete_answer connLostBackend
      "00000000-0000-0000-0000-000000000000").1 = .error (DBError.Other connLostError) ∧
    (AnswersDaoImpl.get_answers connLostBackend
      "00000000-0000-0000-0000-000000000000").1 = .error (DBError.Other connLostError) :=
  ⟨by
    have h := dao_backend_error_translation.1 fkFailingBackend
      { question_uuid := "00000000-0000-0000-0000-000000000000", content := "c" } uuidZero
      "update or delete on table questions violates foreign key constraint" (by decide) rfl
    simpa using h,
   dao_backend_error_translation.2.2.1 connLostBackend
     { question_uuid := "00000000-0000-0000-0000-000000000000", content := "c" } uuidZero
     "connection reset" (by decide) rfl,
   dao_backend_error_translation.2.2.2.1 connLostBackend
     "00000000-0000-0000-0000-000000000000" uuidZero connLostError (by decide) rfl,
   dao_backend_error_translation.2.2.2.2.1 connLostBackend
     "00000000-0000-0000-0000-000000000000" uuidZero connLostError (by decide) rfl,
   dao_backend_error_translation.2.2.2.2.2 connLostBackend
     "00000000-0000-0000-0000-000000000000" uuidZero connLostError (by decide) rfl⟩

/-- C8: under normal backend operation, deleting a well-formed identifier
that denotes no existing row succeeds (`Ok` with no value) in both stores,
and the database is left unchanged. -/
theorem delete_nonexistent_succeeds :
    ∀ (b : Backend) (s : String) (u : Uuid),
      b.failure = none → Uuid.parse_str s = some u →
      ((∀ q ∈ b.db.questions, q.question_uuid ≠ u) →
        QuestionsDaoImpl.delete_question b s = (.ok (), b.db)) ∧
      ((∀ a ∈ b.db.answers, a.answer_uuid ≠ u) →
        AnswersDaoImpl.delete_answer b s = (.ok (), b.db)) := by
  intro b s u hf hp
  constructor
  · intro hq
    have hany : b.db.questions.any (fun q => decide (q.question_uuid = u)) = false := by
      simp [List.any_eq_false]
      exact hq
    have hfil : b.db.questions.filter (fun q => !decide (q.question_uuid = u))
        = b.db.questions := by
      refine List.filter_eq_self.mpr ?_
      intro q hqmem
      simpa using hq q hqmem
    simp [QuestionsDaoImpl.delete_question, hp, pg_delete_question, hf, hany, hfil]
  · intro ha
    have hfil : b.db.answers.filter (fun a => !decide (a.answer_uuid = u))
        = b.db.answers := by
      refine List.filter_eq_self.mpr ?_
      intro a hamem
      simpa using ha a hamem
    simp [AnswersDaoImpl.delete_answer, hp, pg_delete_answer, hf, hfil]

/-- Witness for C8: `delete_nonexistent_succeeds` over the empty database,
where no identifier denotes a row. -/
theorem delete_nonexistent_succeeds_witness :
    QuestionsDaoImpl.delete_question emptyBackend "00000000-0000-0000-0000-000000000000"
      = (.ok (), emptyDb) ∧
    AnswersDaoImpl.delete_answer emptyBackend "00000000-0000-0000-0000-000000000000"
      = (.ok (), emptyDb) :=
  ⟨(delete_nonexistent_succeeds emptyBackend "00000000-0000-0000-0000-000000000000" uuidZero
      rfl (by decide)).1 (by simp [emptyBackend, emptyDb]),
   (delete_nonexistent_succeeds emptyBackend "00000000-0000-0000-0000-000000000000" uuidZero
      rfl (by decide)).2 (by simp [emptyBackend, emptyDb])⟩

def answerRecOne : AnswerRecord :=
  { answer_uuid := uuidZero, question_uuid := uuidOne, content := "c", created_at := "t" }

def backendC9 : Backend :=
  { db := { questions := [], answers := [answerRecOne] }, failure := none,
    fresh_uuid := uuidZero, now := "t" }

/-- C9 counterexample: `get_answers` called with the well-formed (simple-form)
argument `"00000000000000000000000000000001"` returns an `AnswerDetail` whose
`question_uuid` is the canonical hyphenated rendering of that UUID, which is
not equal to the argument string. -/
theorem get_answers_noncanonical_arg :
    (AnswersDaoImpl.get_answers backendC9 "00000000000000000000000000000001").1
      = .ok [{ answer_uuid := "00000000-0000-0000-0000-000000000000",
               question_uuid := "00000000-0000-0000-0000-000000000001",
               content := "c", created_at := "t" }] ∧
    "00000000-0000-0000-0000-000000000001" ≠ "00000000000000000000000000000001" :=
  ⟨rfl, by decide⟩

/-- C9 amended: for every well-formed `question_uuid` argument, every
`AnswerDetail` returned by `get_answers` has its `question_uuid` field equal
to the canonical (lowercase hyphenated) rendering of the argument — hence
equal to the argument itself exactly when the argument is already canonical. -/
theorem get_answers_scoped_to_canonical_uuid :
    ∀ (b : Backend) (s : String) (u : Uuid) (l : List AnswerDetail),
      Uuid.parse_str s = some u →
      (AnswersDaoImpl.get_answers b s).1 = .ok l →
      ∀ d ∈ l, d.question_uuid = Uuid.toString u := by
  intro b s u l hp hok d hd
  cases hf : b.failure with
  | some e => simp [AnswersDaoImpl.get_answers, hp, pg_select_answers, hf] at hok
  | none =>
    simp [AnswersDaoImpl.get_answers, hp, pg_select_answers, hf] at hok
    subst hok
    rcases List.mem_map.mp hd with ⟨r, hrmem, hrd⟩
    have hru : r.question_uuid = u := by
      have := (List.mem_filter.mp hrmem).2
      simpa using this
    rw [← hrd]
    simp [hru]

def detailOne : AnswerDetail :=
  { answer_uuid := "00000000-0000-0000-0000-000000000000",
    question_uuid := "00000000-0000-0000-0000-000000000001",
    content := "c", created_at := "t" }

/-- Witness for C9 amended: `get_answers_scoped_to_canonical_uuid` applied at
a canonical argument over a concrete database. -/
theorem get_answers_scoped_to_canonical_uuid_witness :
    detailOne.question_uuid = Uuid.toString uuidOne :=
  get_answers_scoped_to_canonical_uuid backendC9 "00000000-0000-0000-0000-000000000001"
    uuidOne [detailOne] (by decide) rfl detailOne (List.Mem.head _)

/-- `sub` occurs as a contiguous substring of `s`. -/
def containsStr (s sub : String) : Prop :=
  ∃ pre post, s = pre ++ sub ++ post

/-- C6: when an `Answer` carries a `question_uuid` that does not reference an
existing question — malformed, or well-formed but rejected by the store as a
foreign-key violation — the create-answer handler backed by `AnswersDaoImpl`
returns `BadRequest` with a message containing the offending identifier. -/
theorem create_answer_bad_request_contains_uuid :
    ∀ (b : Backend) (answer : Answer),
      (Uuid.parse_str answer.question_uuid = none ∨
        (b.failure = none ∧ ∃ u, Uuid.parse_str answer.question_uuid = some u ∧
          ∀ q ∈ b.db.questions, q.question_uuid ≠ u)) →
      ∃ msg,
        (handlers_inner.create_answer answer (answersDaoOf b)).1
          = .error (HandlerError.BadRequest msg) ∧
        containsStr msg answer.question_uuid := by
  intro b answer h
  rcases h with hparse | ⟨hf, u, hu, hq⟩
  · refine ⟨"Could not parse answer UUID: " ++ answer.question_uuid, ?_, ?_⟩
    · simp [handlers_inner.create_answer, answersDaoOf, AnswersDaoImpl.create_answer, hparse]
    · exact ⟨"Could not parse answer UUID: ", "", by simp⟩
  · have hnone : ¬ ∃ x ∈ b.db.questions, x.question_uuid = u := by
      rintro ⟨x, hx, hxu⟩
      exact hq x hx hxu
    refine ⟨"Invalid question UUID: " ++ answer.question_uuid, ?_, ?_⟩
    · simp [handlers_inner.create_answer, answersDaoOf, AnswersDaoImpl.create_answer, hu,
        pg_insert_answer, hf, hnone]
    · exact ⟨"Invalid question UUID: ", "", by simp⟩

/-- Witness for C6: `create_answer_bad_request_contains_uuid` at the spec's
scenario input `question_uuid = "not-a-uuid"` over a concrete backend. -/
theorem create_answer_bad_request_contains_uuid_witness :
    ∃ msg,
      (handlers_inner.create_answer { question_uuid := "not-a-uuid", content := "c" }
        (answersDaoOf emptyBackend)).1 = .error (HandlerError.BadRequest msg) ∧
      containsStr msg "not-a-uuid" :=
  create_answer_bad_request_contains_uuid emptyBackend
    { question_uuid := "not-a-uuid", content := "c" } (Or.inl (by decide))

/-- C10: the handlers bound by the routing table are exactly the six
placeholder functions of `handlers/mod.rs`; none of them takes a store
capability (their types involve no DAO or backend), each returns fixed
constant data — the placeholder detail records, or unit for the deletes —
independently of its input, and no route binds a `handlers_inner` function. -/
theorem routes_return_constant_data :
    (∀ q : Question, handlers.create_question q = handlers.placeholder_question_detail) ∧
    handlers.read_questions = handlers.placeholder_question_list ∧
    (∀ i : QuestionId, handlers.delete_question i = ()) ∧
    (∀ a : Answer, handlers.create_answer a = handlers.placeholder_answer_detail) ∧
    handlers.read_answers = handlers.placeholder_answer_list ∧
    (∀ i : AnswerId, handlers.delete_answer i = ()) ∧
    router.map (fun e => e.2.2)
      = [RouteHandler.create_question, RouteHandler.read_questions,
         RouteHandler.delete_question, RouteHandler.create_answer,
         RouteHandler.read_answers, RouteHandler.delete_answer] :=
  ⟨fun _ => rfl, rfl, fun _ => rfl, fun _ => rfl, rfl, fun _ => rfl, rfl⟩
